import Mathlib

/-!
Verification of the mail-template repository's transport-wrapping class
(`GmailMailer`): a shallow embedding of `sendEmail`, `sendBulkEmails`,
`resolveAttachmentPath`, `processAttachments` and `sendTemplatedEmails`,
followed by theorems settling the specification's claims.

Modelling conventions, shared by every definition below:
  * the nodemailer transport is an external collaborator: it is a parameter
    `send : MailOptions → Except Thrown SendInfo` (a thrown value is either a
    JS `Error` carrying a message, or some non-`Error` value);
  * `Promise.allSettled` over `array.map(task)` is modelled by mapping the
    (deterministic) per-item task over the list; the JS built-in guarantees the
    settled-results array is in input order regardless of completion order, so
    order preservation of the built-in is part of the model and the theorems
    speak about the aggregation the repository performs on top of it;
  * JS optional fields are `Option`; JS truthiness of an optional string is
    `strTruthy` (absent and `""` are falsy); arrays and objects are truthy;
  * filesystem existence (`existsSync`) is a parameter `fs : String → Bool`;
    `console.warn` output is collected as a returned list of strings;
  * `process.env.ASSETS_DIR` is a parameter `env : Option String`, the current
    working directory a parameter `cwd : String`.
-/

/-- A value thrown by JS code: either an `Error` object with a `message`
string, or any non-`Error` value (string, number, ...). -/
inductive Thrown where
  | err (msg : String)
  | nonError
deriving DecidableEq, Repr

/-- The `Config` consumed by the `GmailMailer` constructor. -/
structure Config where
  GMAIL_USER : String
  GMAIL_APP_PASSWORD : String
  GMAIL_FROM_NAME : String
deriving DecidableEq, Repr

/-- A `string | string[]` recipient value. -/
inductive Recipient where
  | str (s : String)
  | list (l : List String)
deriving DecidableEq, Repr

/-- `EmailOptions` from the source (`to`, `subject`, `content`, `html?`). -/
structure EmailOptions where
  «to» : Recipient
  subject : String
  content : String
  html : Option Bool := none
deriving DecidableEq, Repr

/-- `inline | attachment` disposition values. -/
inductive Disposition where
  | inline
  | attachment
deriving DecidableEq, Repr

/-- `string | Buffer` attachment content. -/
inductive AttachContent where
  | str (s : String)
  | buf (b : List Nat)
deriving DecidableEq, Repr

/-- `EmailAttachment` from the source.  A `stream` is an opaque `Readable`
handle (modelled by a `Nat` identity); as a JS object it is always truthy
when present. -/
structure EmailAttachment where
  filename : String
  contentType : String
  cid : Option String := none
  disposition : Option Disposition := none
  path : Option String := none
  content : Option AttachContent := none
  stream : Option Nat := none
  encoding : Option String := none
deriving DecidableEq, Repr

/-- `EmailTemplate` from the source. -/
structure EmailTemplate where
  id : String
  subject : String
  html : Option String := none
  text : Option String := none
  «to» : Option Recipient := none
  attachments : List EmailAttachment := []
deriving DecidableEq, Repr

/-- The processed-attachment shape built by `processAttachments` for
nodemailer (`contentDisposition`, and `raw` for streams). -/
structure ProcessedAttachment where
  filename : String
  contentType : String
  cid : Option String := none
  contentDisposition : Option Disposition := none
  path : Option String := none
  content : Option AttachContent := none
  raw : Option Nat := none
  encoding : Option String := none
deriving DecidableEq, Repr

/-- The mail-options object handed to `transporter.sendMail`. -/
structure MailOptions where
  fromName : String
  fromAddress : String
  «to» : String
  subject : String
  html : Option String := none
  text : Option String := none
  attachments : Option (List ProcessedAttachment) := none
deriving DecidableEq, Repr

/-- What a successful `sendMail` resolves with. -/
structure SendInfo where
  messageId : String
deriving DecidableEq, Repr

/-- Result record of `sendEmail`. -/
structure SendResult where
  success : Bool
  messageId : Option String := none
  error : Option String := none
deriving DecidableEq, Repr

/-- Result record of `sendBulkEmails` (adds `to`). -/
structure BulkSendResult where
  success : Bool
  messageId : Option String := none
  error : Option String := none
  «to» : String
deriving DecidableEq, Repr

/-- Result record of `sendTemplatedEmails` (adds `templateId` and `to`). -/
structure TemplatedSendResult where
  success : Bool
  messageId : Option String := none
  error : Option String := none
  templateId : String
  «to» : String
deriving DecidableEq, Repr

/-- JS truthiness of an optional string: absent and `""` are falsy. -/
def strTruthy : Option String → Bool
  | none => false
  | some s => s != ""

/-- JS truthiness of a `string | string[]` value: an empty string is falsy,
an array (even empty) is an object and hence truthy. -/
def recTruthy : Recipient → Bool
  | .str s => s != ""
  | .list _ => true

/-- JS truthiness of an optional `string | string[]` value. -/
def optRecTruthy : Option Recipient → Bool
  | none => false
  | some r => recTruthy r

/-- `a || b` on optional recipient values: the left operand when truthy,
otherwise the right operand. -/
def jsOrRec (a b : Option Recipient) : Option Recipient :=
  if optRecTruthy a then a else b

/-- `Array.isArray(to) ? to.join(', ') : to` (source lines 117, 148, 279). -/
def joinRecipient : Recipient → String
  | .str s => s
  | .list l => String.intercalate ", " l

/-- The `mailOptions` object built by `sendEmail` (source lines 112–120):
the body goes into the `html` field when `options.html` is truthy and into
the `text` field otherwise (computed key `[options.html ? 'html' : 'text']`). -/
def buildMailOptions (cfg : Config) (o : EmailOptions) : MailOptions :=
  { fromName := cfg.GMAIL_FROM_NAME
    fromAddress := cfg.GMAIL_USER
    «to» := joinRecipient o.«to»
    subject := o.subject
    html := if o.html = some true then some o.content else none
    text := if o.html = some true then none else some o.content }

/-- `error instanceof Error ? error.message : 'unknown error'`
(source line 129). -/
def caughtMessage : Thrown → String
  | .err m => m
  | .nonError => "unknown error"

/-- `sendEmail` (source lines 110–135): builds the mail options, invokes the
transport, and catches any thrown value, so it always returns a `SendResult`
and never rethrows. -/
def sendEmail (send : MailOptions → Except Thrown SendInfo) (cfg : Config)
    (o : EmailOptions) : SendResult :=
  match send (buildMailOptions cfg o) with
  | .ok info => { success := true, messageId := some info.messageId }
  | .error e => { success := false, error := some (caughtMessage e) }

/-- The per-item async task of `sendBulkEmails` (source lines 144–150):
awaits `sendEmail` (which never throws) and spreads its result together with
the joined recipient, so the task always fulfills. -/
def bulkTask (send : MailOptions → Except Thrown SendInfo) (cfg : Config)
    (email : EmailOptions) : Except Thrown BulkSendResult :=
  let r := sendEmail send cfg email
  .ok { success := r.success, messageId := r.messageId, error := r.error
        «to» := joinRecipient email.«to» }

/-- `result.reason?.message || 'send failed'` (source lines 159, 314): an
`Error`'s message when non-empty, otherwise the generic string. -/
def reasonMessage : Thrown → String
  | .err m => if m = "" then "send failed" else m
  | .nonError => "send failed"

/-- The `to` field of a rejected bulk item (source line 160):
`Array.isArray(emails[index]?.to) ? emails[index]!.to.join(', ')
 : emails[index]?.to || 'unknown'`. -/
def bulkFallbackTo : Option EmailOptions → String
  | none => "unknown"
  | some e =>
    match e.«to» with
    | .list l => String.intercalate ", " l
    | .str s => if s = "" then "unknown" else s

/-- The record built for a rejected bulk item (source lines 157–161). -/
def bulkFallback (e? : Option EmailOptions) (e : Thrown) : BulkSendResult :=
  { success := false, error := some (reasonMessage e), «to» := bulkFallbackTo e? }

/-- The aggregation arrow `results.map((result, index) => ...)` shared by
both batch operations (source lines 153–163 and 307–325): a fulfilled task
contributes its value; a rejected one is converted by the fallback builder,
which looks the original input up by index. -/
def settleAgg {α β : Type} (fb : Option α → Thrown → β) (full : List α)
    (p : Nat × Except Thrown β) : β :=
  match p.2 with
  | .ok v => v
  | .error e => fb (full.get? p.1) e

/-- The value the settled aggregation produces for one input: the task's own
value when it fulfills, the fallback at that input on its rejection. -/
def settleItem {α β : Type} (task : α → Except Thrown β)
    (fb : Option α → Thrown → β) (a : α) : β :=
  match task a with
  | .ok v => v
  | .error e => fb (some a) e

/-- `sendBulkEmails` (source lines 142–164): map every input through the
per-item task, settle them all, then rebuild the result array by index,
converting a rejected item into a structured failure that names the original
input's recipient. -/
def sendBulkEmails (send : MailOptions → Except Thrown SendInfo) (cfg : Config)
    (emails : List EmailOptions) : List BulkSendResult :=
  let results := emails.map (bulkTask send cfg)
  (List.enumFrom 0 results).map (settleAgg bulkFallback emails)

/-- Replace every occurrence of the non-empty pattern `t` in `s` by `r`,
scanning left to right without rescanning the replacement — the semantics of
JS `s.replace(/t/g, r)` for a literal pattern.  `fuel` bounds the recursion;
every step consumes at least one character of `s`, so `s.length` fuel is
enough. -/
def replaceAllAux (t r : List Char) : Nat → List Char → List Char
  | 0, s => s
  | fuel + 1, s =>
    if !t.isEmpty && t.isPrefixOf s then
      r ++ replaceAllAux t r fuel (s.drop t.length)
    else
      match s with
      | [] => []
      | c :: cs => c :: replaceAllAux t r fuel cs

/-- `s.replace(/t/g, r)` for a literal pattern `t`. -/
def replaceAll (s t r : String) : String :=
  String.mk (replaceAllAux t.data r.data s.data.length s.data)

/-- Whether `t` occurs as a contiguous sublist of `s`. -/
def containsToken (t : List Char) : List Char → Bool
  | [] => t.isEmpty
  | c :: cs => t.isPrefixOf (c :: cs) || containsToken t cs

/-- The literal placeholder token `\x7b\x7bassetsDir\x7d\x7d`. -/
def assetsToken : String := "\x7b\x7bassetsDir\x7d\x7d"

/-- `process.env.ASSETS_DIR || './src'` (source line 172). -/
def assetsDirOf : Option String → String
  | none => "./src"
  | some s => if s = "" then "./src" else s

/-- The placeholder substitution performed on an attachment path
(source line 173). -/
def substAssets (env : Option String) (p : String) : String :=
  replaceAll p assetsToken (assetsDirOf env)

/-- `resolvedPath.startsWith('./') || resolvedPath.startsWith('../')`
(source line 176), stated on the character list of the string. -/
def relMarker (s : String) : Bool :=
  ['.', '/'].isPrefixOf s.data || ['.', '.', '/'].isPrefixOf s.data

/-- Models Node's `path.resolve(cwd, p)`, an external library function: an
already-absolute `p` is kept, otherwise `p` is joined onto the current
working directory (segment normalization is not modelled; the program only
relies on the result being anchored at `cwd`). -/
def nodeResolve (cwd p : String) : String :=
  if ['/'].isPrefixOf p.data then p else cwd ++ "/" ++ p

/-- `resolveAttachmentPath` (source lines 171–181): substitute the
placeholder, then resolve `./`- or `../`-prefixed results against the
current working directory and return anything else unchanged. -/
def resolveAttachmentPath (env : Option String) (cwd : String) (path : String) :
    String :=
  let resolvedPath := substAssets env path
  if relMarker resolvedPath then nodeResolve cwd resolvedPath else resolvedPath

/-- Source lines 228–236: attach `cid` when truthy and `contentDisposition`
when present (a `disposition` value is a non-empty string, hence truthy
exactly when present). -/
def addCidDisp (a : EmailAttachment) (p : ProcessedAttachment) :
    ProcessedAttachment :=
  let p1 := if strTruthy a.cid then { p with cid := a.cid } else p
  if a.disposition.isSome then { p1 with contentDisposition := a.disposition }
  else p1

/-- The not-found warning text of source line 211. -/
def notFoundWarning (resolvedPath : String) : String :=
  "Warning: Attachment file not found: " ++ resolvedPath

/-- The error message of source line 225. -/
def missingSourceMessage (filename : String) : String :=
  "Attachment " ++ filename ++
    " must have either \x27path\x27, \x27content\x27, or \x27stream\x27"

/-- Processing of one attachment (source lines 189–238): branch on a truthy
`path`, then a defined `content`, then a truthy `stream`; otherwise throw.
Returns the processed attachment together with the `console.warn` lines it
emitted. -/
def processAttachment (fs : String → Bool) (env : Option String) (cwd : String)
    (a : EmailAttachment) : Except String (ProcessedAttachment × List String) :=
  let base : ProcessedAttachment :=
    { filename := a.filename, contentType := a.contentType }
  if strTruthy a.path then
    let resolvedPath := resolveAttachmentPath env cwd (a.path.getD "")
    let warnings := if fs resolvedPath then [] else [notFoundWarning resolvedPath]
    .ok (addCidDisp a { base with path := some resolvedPath }, warnings)
  else if a.content.isSome then
    .ok (addCidDisp a { base with
          content := a.content
          encoding := if strTruthy a.encoding then a.encoding else none }, [])
  else if a.stream.isSome then
    .ok (addCidDisp a { base with raw := a.stream }, [])
  else
    .error (missingSourceMessage a.filename)

/-- `processAttachments` (source lines 188–240): process each attachment in
order; the first throwing attachment aborts the map (the thrown error
surfaces to the caller), otherwise the processed list and the concatenated
warnings are returned. -/
def processAttachments (fs : String → Bool) (env : Option String) (cwd : String) :
    List EmailAttachment → Except String (List ProcessedAttachment × List String)
  | [] => .ok ([], [])
  | a :: rest => do
    let (p, w) ← processAttachment fs env cwd a
    let (ps, ws) ← processAttachments fs env cwd rest
    .ok (p :: ps, w ++ ws)

/-- The `mailOptions` object built for one template (source lines 274–293):
`html` is set when the template's html is truthy, with `text` added as the
plaintext alternative when the template's text is also truthy; otherwise only
`text` is set (to the template's text field as-is). -/
def templateMailOptions (cfg : Config) (toRec : Recipient) (t : EmailTemplate)
    (processed : List ProcessedAttachment) : MailOptions :=
  let hasHtml := strTruthy t.html
  let hasText := strTruthy t.text
  { fromName := cfg.GMAIL_FROM_NAME
    fromAddress := cfg.GMAIL_USER
    «to» := joinRecipient toRec
    subject := t.subject
    attachments := some processed
    html := if hasHtml then t.html else none
    text := if hasHtml then (if hasText then t.text else none) else t.text }

/-- The missing-recipient error message of source line 258. -/
def noRecipientMessage (id : String) : String :=
  "Template " ++ id ++ " has no recipient specified"

/-- The empty-content error message of source line 267. -/
def noContentMessage (id : String) : String :=
  "Template " ++ id ++ " has no content (html or text)"

/-- The per-template async task of `sendTemplatedEmails`
(source lines 253–304): resolve the recipient as `template.to || defaultTo`
and throw when the result is falsy; pick the body content preferring truthy
html over truthy text and throw when neither is truthy; process the
attachments (a processing error propagates as this task's rejection); build
the mail options and invoke the transport. -/
def templatedTask (send : MailOptions → Except Thrown SendInfo) (cfg : Config)
    (fs : String → Bool) (env : Option String) (cwd : String)
    (d : Option Recipient) (t : EmailTemplate) :
    Except Thrown TemplatedSendResult :=
  match jsOrRec t.«to» d with
  | none => .error (.err (noRecipientMessage t.id))
  | some toRec =>
    if recTruthy toRec = false then .error (.err (noRecipientMessage t.id))
    else
      let hasHtml := strTruthy t.html
      let hasText := strTruthy t.text
      let content :=
        if hasHtml then t.html.getD ""
        else if hasText then t.text.getD "" else ""
      if content = "" then .error (.err (noContentMessage t.id))
      else
        match processAttachments fs env cwd t.attachments with
        | .error msg => .error (.err msg)
        | .ok (processed, _warnings) =>
          match send (templateMailOptions cfg toRec t processed) with
          | .error e => .error e
          | .ok info =>
            .ok { success := true, messageId := some info.messageId
                  templateId := t.id, «to» := joinRecipient toRec }

/-- The `to` field of a rejected templated item (source lines 316–322):
recompute `template?.to || defaultTo`; an array joins (even when empty), a
string falls back to `'unknown'` when falsy. -/
def templatedFallbackTo (t? : Option EmailTemplate) (d : Option Recipient) :
    String :=
  let recipient := match t? with
    | none => d
    | some t => jsOrRec t.«to» d
  match recipient with
  | some (.list l) => String.intercalate ", " l
  | some (.str s) => if s = "" then "unknown" else s
  | none => "unknown"

/-- The record built for a rejected templated item (source lines 311–323);
`template?.id || 'unknown'` falls back when the id is absent or empty. -/
def templatedFallback (d : Option Recipient) (t? : Option EmailTemplate)
    (e : Thrown) : TemplatedSendResult :=
  { success := false, error := some (reasonMessage e)
    templateId := match t? with
      | some t => if t.id = "" then "unknown" else t.id
      | none => "unknown"
    «to» := templatedFallbackTo t? d }

/-- `sendTemplatedEmails` (source lines 248–326): map every template through
the per-template task, settle them all, then rebuild the result array by
index, converting a rejected template into a structured failure. -/
def sendTemplatedEmails (send : MailOptions → Except Thrown SendInfo)
    (cfg : Config) (fs : String → Bool) (env : Option String) (cwd : String)
    (templates : List EmailTemplate) (d : Option Recipient) :
    List TemplatedSendResult :=
  let results := templates.map (templatedTask send cfg fs env cwd d)
  (List.enumFrom 0 results).map (settleAgg (templatedFallback d) templates)

/-- The value the aggregation of `sendBulkEmails` produces for one input. -/
def bulkItem (send : MailOptions → Except Thrown SendInfo) (cfg : Config)
    (e : EmailOptions) : BulkSendResult :=
  settleItem (bulkTask send cfg) bulkFallback e

/-- The value the aggregation of `sendTemplatedEmails` produces for one
template. -/
def templatedItem (send : MailOptions → Except Thrown SendInfo) (cfg : Config)
    (fs : String → Bool) (env : Option String) (cwd : String)
    (d : Option Recipient) (t : EmailTemplate) : TemplatedSendResult :=
  settleItem (templatedTask send cfg fs env cwd d) (templatedFallback d) t

/-- The processed attachment produced by the `path` branch of
`processAttachments` (the value proven in `claim_C8`). -/
def pathProcessed (env : Option String) (cwd : String) (a : EmailAttachment) :
    ProcessedAttachment :=
  addCidDisp a
    { filename := a.filename, contentType := a.contentType
      path := some (resolveAttachmentPath env cwd (a.path.getD "")) }

/-- A concrete path-source attachment whose file is missing (used by the C8
witness). -/
def attachC8 : EmailAttachment :=
  { filename := "logo.png", contentType := "image/png",
    path := some "/abs/logo.png" }

/-- A concrete template carrying `attachC8` (used by the C8 witness). -/
def templC8 : EmailTemplate :=
  { id := "t1", subject := "s", html := some "<p>h</p>",
    «to» := some (.str "a@x.com"), attachments := [attachC8] }

/-- A concrete path-source attachment with no `disposition` (C7
counterexample input). -/
def attachC7 : EmailAttachment :=
  { filename := "f.pdf", contentType := "application/pdf",
    path := some "/abs/f.pdf" }

/-- A concrete attachment with an empty-string `path` and a supplied
`content` (C3 counterexample input). -/
def attachC3 : EmailAttachment :=
  { filename := "f", contentType := "ct", path := some "",
    content := some (.str "c") }

/-- A template whose own `to` is the *empty string* while a default recipient
is supplied (C4 counterexample input). -/
def templC4 : EmailTemplate :=
  { id := "t1", subject := "s", html := some "<p>h</p>",
    «to» := some (.str "") }

/-- A template with truthy html and a *present but empty* text (C5
counterexample input). -/
def templC5 : EmailTemplate :=
  { id := "t1", subject := "s", html := some "<p>h</p>", text := some "" }

/-! ### Helper lemmas -/

/-- The settled-results aggregation `results.map((result, index) => ...)`
used by both batch operations: mapping the task over the inputs, enumerating,
and rebuilding by index is the same as mapping one per-input function. -/
theorem settle_map {α β : Type} (task : α → Except Thrown β)
    (fb : Option α → Thrown → β) :
    ∀ (l full : List α) (n : Nat), (∀ i, full.get? (n + i) = l.get? i) →
      (List.enumFrom n (l.map task)).map (settleAgg fb full)
        = l.map (settleItem task fb) := by
  intro l
  induction l with
  | nil => intro full n h; rfl
  | cons a as ih =>
    intro full n h
    have h0 : full[n]? = some a := by simpa using h 0
    simp only [List.map_cons, List.enumFrom]
    congr 1
    · unfold settleAgg settleItem
      cases hta : task a <;> simp [hta, h0]
    · refine ih full (n + 1) (fun i => ?_)
      have e : n + 1 + i = n + (i + 1) := by omega
      rw [e]
      simpa using h (i + 1)

/-- A step of the literal-pattern global replace leaves a string without any
occurrence of the (non-empty) pattern unchanged. -/
theorem replaceAllAux_id (t0 : Char) (ts r : List Char) :
    ∀ (fuel : Nat) (s : List Char), containsToken (t0 :: ts) s = false →
      replaceAllAux (t0 :: ts) r fuel s = s := by
  intro fuel
  induction fuel with
  | zero => intro s _; rfl
  | succ fuel ih =>
    intro s h
    cases s with
    | nil => simp [replaceAllAux, List.isPrefixOf]
    | cons c cs =>
      have h' : ((t0 :: ts).isPrefixOf (c :: cs) || containsToken (t0 :: ts) cs)
          = false := h
      simp only [Bool.or_eq_false_iff] at h'
      simp only [replaceAllAux, List.isEmpty_cons, Bool.not_false,
        Bool.true_and, h'.1, if_neg]
      rw [ih cs h'.2]
      simp

/-- Global replace of a non-empty pattern that does not occur in the subject
string is the identity. -/
theorem replaceAll_of_not_contains (s t r : String)
    (ht : t.data.isEmpty = false)
    (h : containsToken t.data s.data = false) : replaceAll s t r = s := by
  unfold replaceAll
  cases et : t.data with
  | nil => rw [et] at ht; simp [List.isEmpty] at ht
  | cons t0 ts =>
    rw [et] at h
    rw [replaceAllAux_id t0 ts r.data s.data.length s.data h]

/-- Appending `cid`/`contentDisposition` does not change the `path` field. -/
theorem addCidDisp_path (a : EmailAttachment) (p : ProcessedAttachment) :
    (addCidDisp a p).path = p.path := by
  unfold addCidDisp
  dsimp only
  split <;> split <;> rfl

/-- Appending `cid`/`contentDisposition` does not change the `content` field. -/
theorem addCidDisp_content (a : EmailAttachment) (p : ProcessedAttachment) :
    (addCidDisp a p).content = p.content := by
  unfold addCidDisp
  dsimp only
  split <;> split <;> rfl

/-- Appending `cid`/`contentDisposition` does not change the `raw` field. -/
theorem addCidDisp_raw (a : EmailAttachment) (p : ProcessedAttachment) :
    (addCidDisp a p).raw = p.raw := by
  unfold addCidDisp
  dsimp only
  split <;> split <;> rfl

/-- Appending `cid`/`contentDisposition` does not change the `encoding`
field. -/
theorem addCidDisp_encoding (a : EmailAttachment) (p : ProcessedAttachment) :
    (addCidDisp a p).encoding = p.encoding := by
  unfold addCidDisp
  dsimp only
  split <;> split <;> rfl

/-- The `cid` written by `addCidDisp`: the attachment's own when truthy. -/
theorem addCidDisp_cid (a : EmailAttachment) (p : ProcessedAttachment) :
    (addCidDisp a p).cid = if strTruthy a.cid then a.cid else p.cid := by
  unfold addCidDisp
  dsimp only
  split <;> split <;> simp_all

/-- The `contentDisposition` written by `addCidDisp`: the attachment's own
when present. -/
theorem addCidDisp_disposition (a : EmailAttachment) (p : ProcessedAttachment) :
    (addCidDisp a p).contentDisposition =
      if a.disposition.isSome then a.disposition else p.contentDisposition := by
  unfold addCidDisp
  dsimp only
  split <;> split <;> simp_all

/-- Branch equation of `processAttachment` for a truthy `path`. -/
theorem processAttachment_path_eq (fs : String → Bool) (env : Option String)
    (cwd : String) (a : EmailAttachment) (h : strTruthy a.path = true) :
    processAttachment fs env cwd a =
      .ok (addCidDisp a
            { filename := a.filename, contentType := a.contentType
              path := some (resolveAttachmentPath env cwd (a.path.getD "")) },
          if fs (resolveAttachmentPath env cwd (a.path.getD "")) then []
          else [notFoundWarning (resolveAttachmentPath env cwd (a.path.getD ""))]) := by
  unfold processAttachment
  rw [if_pos h]

/-- Branch equation of `processAttachment` for a falsy `path` and a defined
`content`. -/
theorem processAttachment_content_eq (fs : String → Bool) (env : Option String)
    (cwd : String) (a : EmailAttachment) (h1 : strTruthy a.path = false)
    (h2 : a.content.isSome = true) :
    processAttachment fs env cwd a =
      .ok (addCidDisp a
            { filename := a.filename, contentType := a.contentType
              content := a.content
              encoding := if strTruthy a.encoding then a.encoding else none },
          []) := by
  unfold processAttachment
  rw [if_neg (by simp [h1]), if_pos h2]

/-- Branch equation of `processAttachment` for falsy `path`, undefined
`content` and a present `stream`. -/
theorem processAttachment_stream_eq (fs : String → Bool) (env : Option String)
    (cwd : String) (a : EmailAttachment) (h1 : strTruthy a.path = false)
    (h2 : a.content = none) (h3 : a.stream.isSome = true) :
    processAttachment fs env cwd a =
      .ok (addCidDisp a
            { filename := a.filename, contentType := a.contentType
              raw := a.stream }, []) := by
  unfold processAttachment
  rw [if_neg (by simp [h1]), if_neg (by simp [h2]), if_pos h3]

/-- Branch equation of `processAttachment` when no source is given. -/
theorem processAttachment_error_eq (fs : String → Bool) (env : Option String)
    (cwd : String) (a : EmailAttachment) (h1 : strTruthy a.path = false)
    (h2 : a.content = none) (h3 : a.stream = none) :
    processAttachment fs env cwd a = .error (missingSourceMessage a.filename) := by
  unfold processAttachment
  rw [if_neg (by simp [h1]), if_neg (by simp [h2]), if_neg (by simp [h3])]

/-- Any fulfilled per-template task reports success, the template's own id,
and the joined resolved recipient (which the task found truthy). -/
theorem templatedTask_ok (send : MailOptions → Except Thrown SendInfo)
    (cfg : Config) (fs : String → Bool) (env : Option String) (cwd : String)
    (d : Option Recipient) (t : EmailTemplate) (v : TemplatedSendResult)
    (h : templatedTask send cfg fs env cwd d t = .ok v) :
    v.success = true ∧ v.messageId.isSome = true ∧ v.templateId = t.id ∧
      ∃ r, jsOrRec t.«to» d = some r ∧ recTruthy r = true ∧
        v.«to» = joinRecipient r := by
  unfold templatedTask at h
  dsimp only at h
  split at h
  · exact absurd h (by simp)
  · rename_i r hj
    split at h
    · exact absurd h (by simp)
    · rename_i hr
      by_cases hc : (if strTruthy t.html = true then t.html.getD ""
          else if strTruthy t.text = true then t.text.getD "" else "") = ""
      · rw [if_pos hc] at h; exact absurd h (by simp)
      · rw [if_neg hc] at h
        cases hpa : processAttachments fs env cwd t.attachments with
        | error msg => rw [hpa] at h; exact absurd h (by simp)
        | ok pw =>
          obtain ⟨processed, w⟩ := pw
          rw [hpa] at h
          dsimp only at h
          cases hsend : send (templateMailOptions cfg r t processed) with
          | error e => rw [hsend] at h; exact absurd h (by simp)
          | ok info =>
            rw [hsend] at h
            have hv := Except.ok.inj h
            subst hv
            exact ⟨rfl, rfl, rfl, r, hj, by simpa using hr, rfl⟩

/-! ### Claims -/

/-- **C2.**  `sendEmail` never propagates an exception (it is a total
function into `SendResult` by construction): on transport success it returns
`success := true` with the transport's message id; on a thrown `Error` it
returns `success := false` with the error's message text preserved verbatim;
on a thrown non-`Error` value it falls back to the generic string
`"unknown error"`. -/
theorem claim_C2 (send : MailOptions → Except Thrown SendInfo) (cfg : Config)
    (o : EmailOptions) :
    (∀ info, send (buildMailOptions cfg o) = .ok info →
      sendEmail send cfg o =
        { success := true, messageId := some info.messageId, error := none }) ∧
    (∀ m, send (buildMailOptions cfg o) = .error (.err m) →
      sendEmail send cfg o =
        { success := false, messageId := none, error := some m }) ∧
    (send (buildMailOptions cfg o) = .error .nonError →
      sendEmail send cfg o =
        { success := false, messageId := none, error := some "unknown error" }) := by
  refine ⟨?_, ?_, ?_⟩
  · intro info hi; unfold sendEmail; rw [hi]
  · intro m hm; unfold sendEmail; rw [hm]; rfl
  · intro hn; unfold sendEmail; rw [hn]; rfl

/-- Witness for C2: the three transport outcomes at concrete inputs. -/
theorem claim_C2_witness :
    sendEmail (fun _ => .ok ⟨"id-1"⟩) ⟨"u", "p", "n"⟩ ⟨.str "a@x", "s", "c", none⟩
      = { success := true, messageId := some "id-1", error := none } ∧
    sendEmail (fun _ => .error (.err "boom")) ⟨"u", "p", "n"⟩
        ⟨.str "a@x", "s", "c", none⟩
      = { success := false, messageId := none, error := some "boom" } ∧
    sendEmail (fun _ => .error .nonError) ⟨"u", "p", "n"⟩
        ⟨.str "a@x", "s", "c", none⟩
      = { success := false, messageId := none, error := some "unknown error" } :=
  ⟨(claim_C2 _ _ _).1 ⟨"id-1"⟩ rfl, (claim_C2 _ _ _).2.1 "boom" rfl,
    (claim_C2 _ _ _).2.2 rfl⟩

/-- **C9.**  The mail options `sendEmail` hands to the transport carry a list
recipient joined into one comma-separated string in input order with no
deduplication, and place the body in `text` when the `html` flag is not
`true` and in `html` when it is `true`; in particular the spec's concrete
scenario holds.  (`sendEmail` invokes the transport on exactly
`buildMailOptions cfg o` by definition.) -/
theorem claim_C9 (cfg : Config) (l : List String) (subj body : String)
    (htmlFlag : Option Bool) :
    (buildMailOptions cfg
        { «to» := .list l, subject := subj, content := body, html := htmlFlag }).«to»
      = String.intercalate ", " l ∧
    (htmlFlag ≠ some true →
      (buildMailOptions cfg
          { «to» := .list l, subject := subj, content := body, html := htmlFlag }).text
        = some body ∧
      (buildMailOptions cfg
          { «to» := .list l, subject := subj, content := body, html := htmlFlag }).html
        = none) ∧
    (htmlFlag = some true →
      (buildMailOptions cfg
          { «to» := .list l, subject := subj, content := body, html := htmlFlag }).html
        = some body ∧
      (buildMailOptions cfg
          { «to» := .list l, subject := subj, content := body, html := htmlFlag }).text
        = none) ∧
    (buildMailOptions cfg
        { «to» := .list ["a@x.com", "b@x.com"], subject := "S", content := "C",
          html := some false }).«to» = "a@x.com, b@x.com" ∧
    (buildMailOptions cfg
        { «to» := .list ["a@x.com", "b@x.com"], subject := "S", content := "C",
          html := some false }).text = some "C" ∧
    (buildMailOptions cfg
        { «to» := .list ["a@x.com", "b@x.com"], subject := "S", content := "C",
          html := some false }).html = none := by
  refine ⟨rfl, ?_, ?_, rfl, rfl, rfl⟩
  · intro h
    constructor <;> simp [buildMailOptions, h]
  · intro h
    constructor <;> simp [buildMailOptions, h]

/-- Witness for C9: the general clauses at a concrete flag value. -/
theorem claim_C9_witness :
    (buildMailOptions ⟨"u", "p", "n"⟩
        { «to» := .list ["a@x.com", "b@x.com"], subject := "S", content := "C",
          html := some false }).text = some "C" ∧
    (buildMailOptions ⟨"u", "p", "n"⟩
        { «to» := .list ["a@x.com", "b@x.com"], subject := "S", content := "C",
          html := some false }).html = none :=
  (claim_C9 ⟨"u", "p", "n"⟩ ["a@x.com", "b@x.com"] "S" "C" (some false)).2.1
    (by decide)

/-- A string starting with `/` starts with neither `./` nor `../`. -/
theorem relMarker_of_abs (p : String) (h : ['/'].isPrefixOf p.data = true) :
    relMarker p = false := by
  unfold relMarker
  cases hd : p.data with
  | nil => rw [hd] at h; simp [List.isPrefixOf] at h
  | cons c cs =>
    rw [hd] at h
    simp only [List.isPrefixOf, Bool.and_eq_true, beq_iff_eq] at h
    have hc : c = '/' := h.1.symm
    subst hc
    simp [List.isPrefixOf]

/-- **C6.**  `resolveAttachmentPath` replaces every occurrence of the literal
`\x7b\x7bassetsDir\x7d\x7d` token by the assets directory (the `ASSETS_DIR`
environment value, defaulting to `"./src"` when unset or empty); the
substituted result is resolved against the current working directory exactly
when it begins with `./` or `../`, and returned unchanged otherwise — in
particular an already-absolute, placeholder-free path is returned unchanged.
The concrete clauses instantiate the spec's P3 example and a two-occurrence
path. -/
theorem claim_C6 (env : Option String) (cwd p : String) :
    (containsToken assetsToken.data p.data = false → substAssets env p = p) ∧
    (relMarker (substAssets env p) = true →
      resolveAttachmentPath env cwd p = nodeResolve cwd (substAssets env p)) ∧
    (relMarker (substAssets env p) = false →
      resolveAttachmentPath env cwd p = substAssets env p) ∧
    (['/'].isPrefixOf p.data = true →
      containsToken assetsToken.data p.data = false →
      resolveAttachmentPath env cwd p = p) ∧
    assetsDirOf none = "./src" ∧
    assetsDirOf (some "") = "./src" ∧
    (∀ s, s ≠ "" → assetsDirOf (some s) = s) ∧
    resolveAttachmentPath (some "/tmp/assets") cwd (assetsToken ++ "/logo.png")
      = "/tmp/assets/logo.png" ∧
    resolveAttachmentPath (some "A") cwd
        (assetsToken ++ "/x/" ++ assetsToken ++ ".png") = "A/x/A.png" := by
  refine ⟨?_, ?_, ?_, ?_, rfl, rfl, ?_, ?_, ?_⟩
  · intro h
    exact replaceAll_of_not_contains p assetsToken (assetsDirOf env) (by decide) h
  · intro h; simp [resolveAttachmentPath, h]
  · intro h; simp [resolveAttachmentPath, h]
  · intro h1 h2
    have e : substAssets env p = p :=
      replaceAll_of_not_contains p assetsToken (assetsDirOf env) (by decide) h2
    simp [resolveAttachmentPath, e, relMarker_of_abs p h1]
  · intro s hs; simp [assetsDirOf, hs]
  · have e : substAssets (some "/tmp/assets") (assetsToken ++ "/logo.png")
        = "/tmp/assets/logo.png" := by decide
    have hm : relMarker "/tmp/assets/logo.png" = false := by decide
    simp [resolveAttachmentPath, e, hm]
  · have e : substAssets (some "A") (assetsToken ++ "/x/" ++ assetsToken ++ ".png")
        = "A/x/A.png" := by decide
    have hm : relMarker "A/x/A.png" = false := by decide
    simp [resolveAttachmentPath, e, hm]

/-- Witness for C6: the conditional clauses discharged at concrete paths. -/
theorem claim_C6_witness :
    substAssets none "/abs/logo.png" = "/abs/logo.png" ∧
    resolveAttachmentPath none "/work" "/abs/logo.png" = "/abs/logo.png" ∧
    resolveAttachmentPath none "/work" "./a.png" = nodeResolve "/work" "./a.png" ∧
    assetsDirOf (some "/tmp/assets") = "/tmp/assets" :=
  ⟨(claim_C6 none "/work" "/abs/logo.png").1 (by decide),
    (claim_C6 none "/work" "/abs/logo.png").2.2.2.1 (by decide) (by decide),
    (claim_C6 none "/work" "./a.png").2.1 (by decide),
    (claim_C6 none "/work" "x").2.2.2.2.2.2.1 "/tmp/assets" (by decide)⟩

/-- **C10.**  The branch guards of `processAttachments` are asymmetric:
`path` and `stream` are tested for truthiness while `content` is tested for
definedness.  Resolution fails exactly when `path` is falsy (absent or
empty), `content` is undefined and `stream` is absent; the error names the
attachment's filename; an empty-string `path` behaves exactly like an absent
one (resolution falls through to the other sources); an empty-string
`content` is still a content source. -/
theorem claim_C10 (fs : String → Bool) (env : Option String) (cwd : String)
    (a : EmailAttachment) :
    ((∃ m, processAttachment fs env cwd a = .error m) ↔
      (strTruthy a.path = false ∧ a.content = none ∧ a.stream = none)) ∧
    (∀ m, processAttachment fs env cwd a = .error m →
      m = missingSourceMessage a.filename) ∧
    (a.path = some "" →
      processAttachment fs env cwd a =
        processAttachment fs env cwd { a with path := none }) ∧
    (strTruthy a.path = false → a.content = some (.str "") →
      ∃ pr w, processAttachment fs env cwd a = .ok (pr, w) ∧
        pr.content = some (.str "")) := by
  have main : ∀ m, processAttachment fs env cwd a = .error m →
      strTruthy a.path = false ∧ a.content = none ∧ a.stream = none ∧
        m = missingSourceMessage a.filename := by
    intro m hm
    by_cases h1 : strTruthy a.path = true
    · rw [processAttachment_path_eq fs env cwd a h1] at hm; simp at hm
    · have h1' : strTruthy a.path = false := by simpa using h1
      cases hc : a.content with
      | some c =>
        rw [processAttachment_content_eq fs env cwd a h1' (by simp [hc])] at hm
        simp at hm
      | none =>
        cases hs : a.stream with
        | some s =>
          rw [processAttachment_stream_eq fs env cwd a h1' hc (by simp [hs])] at hm
          simp at hm
        | none =>
          rw [processAttachment_error_eq fs env cwd a h1' hc hs] at hm
          exact ⟨h1', rfl, rfl, (Except.error.inj hm).symm⟩
  refine ⟨⟨?_, ?_⟩, ?_, ?_, ?_⟩
  · rintro ⟨m, hm⟩
    obtain ⟨h1, h2, h3, _⟩ := main m hm
    exact ⟨h1, h2, h3⟩
  · rintro ⟨h1, h2, h3⟩
    exact ⟨_, processAttachment_error_eq fs env cwd a h1 h2 h3⟩
  · intro m hm; exact (main m hm).2.2.2
  · intro h
    have e : ∀ p, addCidDisp { a with path := none } p = addCidDisp a p :=
      fun _ => rfl
    simp [processAttachment, h, strTruthy, e]
  · intro h1 h2
    refine ⟨_, _, processAttachment_content_eq fs env cwd a h1 (by simp [h2]), ?_⟩
    rw [addCidDisp_content]
    simp [h2]

/-- Witness for C10: the guard asymmetry at concrete attachments — an
empty-string `path` together with a `content` resolves as a content source,
and an empty-string `content` alone still resolves. -/
theorem claim_C10_witness :
    processAttachment (fun _ => true) none "/cwd"
        { filename := "f", contentType := "ct", path := some "",
          content := some (.str "c") } =
      processAttachment (fun _ => true) none "/cwd"
        { filename := "f", contentType := "ct", path := none,
          content := some (.str "c") } ∧
    ∃ pr w,
      processAttachment (fun _ => true) none "/cwd"
          { filename := "f", contentType := "ct", content := some (.str "") }
        = .ok (pr, w) ∧ pr.content = some (.str "") :=
  ⟨(claim_C10 (fun _ => true) none "/cwd"
      { filename := "f", contentType := "ct", path := some "",
        content := some (.str "c") }).2.2.1 rfl,
    (claim_C10 (fun _ => true) none "/cwd"
      { filename := "f", contentType := "ct",
        content := some (.str "") }).2.2.2 rfl rfl⟩

/-- A truthy optional string holds a non-empty string. -/
theorem strTruthy_getD (o : Option String) (h : strTruthy o = true) :
    o.getD "" ≠ "" := by
  cases o with
  | none => simp [strTruthy] at h
  | some s => simpa [strTruthy] using h

/-- **C8.**  A path-source attachment whose resolved path the filesystem
reports as missing still resolves: the only effect is the warning line; the
processed attachment carries the resolved path, and a template carrying such
an attachment still reaches the transport (shown here: whenever the
transport accepts the built message, the template's task succeeds). -/
theorem claim_C8 (fs : String → Bool) (env : Option String) (cwd : String)
    (a : EmailAttachment) (h1 : strTruthy a.path = true)
    (h2 : fs (resolveAttachmentPath env cwd (a.path.getD "")) = false) :
    processAttachment fs env cwd a =
      .ok (pathProcessed env cwd a,
        [notFoundWarning (resolveAttachmentPath env cwd (a.path.getD ""))]) ∧
    (pathProcessed env cwd a).path
      = some (resolveAttachmentPath env cwd (a.path.getD "")) ∧
    (∀ send cfg d t r info,
      t.attachments = [a] → jsOrRec t.«to» d = some r → recTruthy r = true →
      strTruthy t.html = true →
      send (templateMailOptions cfg r t [pathProcessed env cwd a]) = .ok info →
      templatedTask send cfg fs env cwd d t =
        .ok { success := true, messageId := some info.messageId
              templateId := t.id, «to» := joinRecipient r }) := by
  have hpa : processAttachment fs env cwd a =
      .ok (pathProcessed env cwd a,
        [notFoundWarning (resolveAttachmentPath env cwd (a.path.getD ""))]) := by
    rw [processAttachment_path_eq fs env cwd a h1, h2]
    rfl
  refine ⟨hpa, ?_, ?_⟩
  · unfold pathProcessed
    rw [addCidDisp_path]
  · intro send cfg d t r info ht hj hr hh hsend
    have hall : processAttachments fs env cwd t.attachments =
        .ok ([pathProcessed env cwd a],
          [notFoundWarning (resolveAttachmentPath env cwd (a.path.getD ""))]) := by
      rw [ht]
      unfold processAttachments
      rw [hpa]
      rfl
    unfold templatedTask
    rw [hj]
    dsimp only
    rw [if_neg (by simp [hr]), if_neg (by simpa [hh] using strTruthy_getD t.html hh),
      hall]
    dsimp only
    rw [hsend]

/-- Witness for C8: a concrete missing-file attachment resolves with the
warning and the send succeeds. -/
theorem claim_C8_witness :
    processAttachment (fun _ => false) none "/cwd" attachC8 =
      .ok (pathProcessed none "/cwd" attachC8,
        [notFoundWarning "/abs/logo.png"]) ∧
    templatedTask (fun _ => .ok ⟨"mid"⟩) ⟨"u", "p", "n"⟩ (fun _ => false) none
        "/cwd" none templC8 =
      .ok { success := true, messageId := some "mid", templateId := "t1",
            «to» := "a@x.com" } := by
  have h := claim_C8 (fun _ => false) none "/cwd" attachC8 rfl rfl
  refine ⟨?_, ?_⟩
  · have := h.1
    simpa using this
  · exact h.2.2 (fun _ => .ok ⟨"mid"⟩) ⟨"u", "p", "n"⟩ none templC8
      (.str "a@x.com") ⟨"mid"⟩ rfl rfl rfl rfl rfl

/-- The `cid` and `contentDisposition` of any successfully processed
attachment, as actually computed by the source: `cid` only when truthy,
`contentDisposition` only when present — and `none` otherwise (no
`attachment` default is materialized). -/
theorem processAttachment_ok_cid_disp (fs : String → Bool) (env : Option String)
    (cwd : String) (a : EmailAttachment) (pr : ProcessedAttachment)
    (w : List String) (h : processAttachment fs env cwd a = .ok (pr, w)) :
    pr.cid = (if strTruthy a.cid then a.cid else none) ∧
    pr.contentDisposition =
      (if a.disposition.isSome then a.disposition else none) := by
  have step : ∀ base : ProcessedAttachment, base.cid = none →
      base.contentDisposition = none → pr = addCidDisp a base →
      pr.cid = (if strTruthy a.cid then a.cid else none) ∧
      pr.contentDisposition =
        (if a.disposition.isSome then a.disposition else none) := by
    intro base hc hd hpr
    subst hpr
    rw [addCidDisp_cid, addCidDisp_disposition, hc, hd]
    exact ⟨rfl, rfl⟩
  by_cases h1 : strTruthy a.path = true
  · rw [processAttachment_path_eq fs env cwd a h1] at h
    have hp := congrArg Prod.fst (Except.ok.inj h)
    exact step _ rfl rfl hp.symm
  · have h1' : strTruthy a.path = false := by simpa using h1
    cases hc : a.content with
    | some c =>
      rw [processAttachment_content_eq fs env cwd a h1' (by simp [hc])] at h
      have hp := congrArg Prod.fst (Except.ok.inj h)
      exact step _ rfl rfl hp.symm
    | none =>
      cases hs : a.stream with
      | some s =>
        rw [processAttachment_stream_eq fs env cwd a h1' hc (by simp [hs])] at h
        have hp := congrArg Prod.fst (Except.ok.inj h)
        exact step _ rfl rfl hp.symm
      | none =>
        rw [processAttachment_error_eq fs env cwd a h1' hc hs] at h
        exact absurd h (by simp)

/-- Counterexample to **C7** as stated: for an attachment whose `disposition`
is unspecified, the resolved attachment's disposition is *not* defaulted to
`attachment` on output — the `contentDisposition` field is simply left
unset (`none`); the `attachment` default is nodemailer's, applied
downstream, not materialized by this code. -/
theorem claim_C7_cex :
    (processAttachment (fun _ => true) none "/cwd" attachC7).toOption.map
        (fun pr => pr.1.contentDisposition) = some none ∧
    some (none : Option Disposition) ≠ some (some Disposition.attachment) := by
  constructor
  · rfl
  · decide

/-- **C7 (amended).**  `cid` is carried through unchanged when present and
non-empty (an empty-string `cid` is falsy and dropped); `disposition` is
carried through unchanged when present; when `disposition` is unspecified
the resolved attachment carries no disposition field at all (the
`attachment` default is left to the transport layer). -/
theorem claim_C7_amended (fs : String → Bool) (env : Option String)
    (cwd : String) (a : EmailAttachment) (pr : ProcessedAttachment)
    (w : List String) (h : processAttachment fs env cwd a = .ok (pr, w)) :
    (∀ c, a.cid = some c → c ≠ "" → pr.cid = some c) ∧
    (a.cid = none → pr.cid = none) ∧
    (a.cid = some "" → pr.cid = none) ∧
    (∀ disp, a.disposition = some disp → pr.contentDisposition = some disp) ∧
    (a.disposition = none → pr.contentDisposition = none) := by
  obtain ⟨hc, hd⟩ := processAttachment_ok_cid_disp fs env cwd a pr w h
  refine ⟨?_, ?_, ?_, ?_, ?_⟩
  · intro c h1 h2
    rw [hc, h1]
    simp [strTruthy, h2]
  · intro h1; rw [hc, h1]; rfl
  · intro h1; rw [hc, h1]; rfl
  · intro disp h1
    rw [hd, h1]
    rfl
  · intro h1; rw [hd, h1]; rfl

/-- Witness for C7 (amended): a concrete inline attachment with a `cid` and
an explicit disposition carries both through; one with neither carries
neither. -/
theorem claim_C7_witness :
    ∃ pr w,
      processAttachment (fun _ => true) none "/cwd"
          { filename := "logo.png", contentType := "image/png",
            path := some "/abs/logo.png", cid := some "logoCid",
            disposition := some .inline }
        = .ok (pr, w) ∧
      pr.cid = some "logoCid" ∧ pr.contentDisposition = some .inline := by
  refine ⟨_, _, rfl, ?_, ?_⟩
  · exact (claim_C7_amended (fun _ => true) none "/cwd"
      { filename := "logo.png", contentType := "image/png",
        path := some "/abs/logo.png", cid := some "logoCid",
        disposition := some .inline } _ _ rfl).1 "logoCid" rfl (by decide)
  · exact (claim_C7_amended (fun _ => true) none "/cwd"
      { filename := "logo.png", contentType := "image/png",
        path := some "/abs/logo.png", cid := some "logoCid",
        disposition := some .inline } _ _ rfl).2.2.2.1 .inline rfl

/-- Counterexample to **C3** as stated: `attachC3` has `path` set (to `""`)
and `content` also supplied, yet resolution does *not* use the path — the
guard tests `path` for truthiness, so the empty-string path falls through
and the resolved attachment carries the content and no path (the claim
predicted `path = some (resolveAttachmentPath env cwd "")` and
`content = none`). -/
theorem claim_C3_cex :
    attachC3.path = some "" ∧
    (processAttachment (fun _ => true) none "/cwd" attachC3).toOption.map
        (fun pr => (pr.1.path, pr.1.content))
      = some (none, some (.str "c")) ∧
    some ((none : Option String), some (AttachContent.str "c")) ≠
      some (some (resolveAttachmentPath none "/cwd" ""),
        (none : Option AttachContent)) := by
  refine ⟨rfl, rfl, ?_⟩
  decide

/-- **C3 (amended).**  Attachment-source precedence with the truthiness
guards the code actually uses: a *truthy* (non-empty) `path` wins — the
resolved attachment carries the resolved path and neither content nor
stream, even when those are also supplied; otherwise a *defined* `content`
(even empty) wins, carried together with its encoding when the encoding is
truthy; otherwise a present `stream` is carried; and when `path` is falsy,
`content` undefined and `stream` absent, resolution fails with an error
naming the attachment's filename. -/
theorem claim_C3_amended (fs : String → Bool) (env : Option String)
    (cwd : String) (a : EmailAttachment) :
    (strTruthy a.path = true →
      ∃ pr w, processAttachment fs env cwd a = .ok (pr, w) ∧
        pr.path = some (resolveAttachmentPath env cwd (a.path.getD "")) ∧
        pr.content = none ∧ pr.raw = none) ∧
    (strTruthy a.path = false → a.content.isSome = true →
      ∃ pr w, processAttachment fs env cwd a = .ok (pr, w) ∧
        pr.content = a.content ∧ pr.path = none ∧ pr.raw = none ∧
        pr.encoding = (if strTruthy a.encoding then a.encoding else none)) ∧
    (strTruthy a.path = false → a.content = none → a.stream.isSome = true →
      ∃ pr w, processAttachment fs env cwd a = .ok (pr, w) ∧
        pr.raw = a.stream ∧ pr.path = none ∧ pr.content = none) ∧
    (strTruthy a.path = false → a.content = none → a.stream = none →
      processAttachment fs env cwd a = .error (missingSourceMessage a.filename)) := by
  refine ⟨?_, ?_, ?_, ?_⟩
  · intro h1
    refine ⟨_, _, processAttachment_path_eq fs env cwd a h1, ?_, ?_, ?_⟩
    · rw [addCidDisp_path]
    · rw [addCidDisp_content]
    · rw [addCidDisp_raw]
  · intro h1 h2
    refine ⟨_, _, processAttachment_content_eq fs env cwd a h1 h2, ?_, ?_, ?_, ?_⟩
    · rw [addCidDisp_content]
    · rw [addCidDisp_path]
    · rw [addCidDisp_raw]
    · rw [addCidDisp_encoding]
  · intro h1 h2 h3
    refine ⟨_, _, processAttachment_stream_eq fs env cwd a h1 h2 h3, ?_, ?_, ?_⟩
    · rw [addCidDisp_raw]
    · rw [addCidDisp_path]
    · rw [addCidDisp_content]
  · exact processAttachment_error_eq fs env cwd a

/-- Witness for C3 (amended): the precedence clauses at concrete
attachments — a non-empty path wins over a supplied content, and a
no-source attachment fails naming its filename. -/
theorem claim_C3_witness :
    (∃ pr w,
      processAttachment (fun _ => true) none "/cwd"
          { filename := "f", contentType := "ct", path := some "/abs/p.png",
            content := some (.str "c") }
        = .ok (pr, w) ∧
      pr.path = some (resolveAttachmentPath none "/cwd" "/abs/p.png") ∧
      pr.content = none ∧ pr.raw = none) ∧
    processAttachment (fun _ => true) none "/cwd"
        { filename := "f2", contentType := "ct" }
      = .error (missingSourceMessage "f2") :=
  ⟨(claim_C3_amended (fun _ => true) none "/cwd"
      { filename := "f", contentType := "ct", path := some "/abs/p.png",
        content := some (.str "c") }).1 rfl,
    (claim_C3_amended (fun _ => true) none "/cwd"
      { filename := "f2", contentType := "ct" }).2.2.2 rfl rfl rfl⟩

/-- A string of the shape `pre ++ mid ++ post` with a non-empty prefix is
non-empty (used for the thrown template error messages). -/
theorem affixed_ne_empty (pre mid post : String) (hpre : pre.data ≠ []) :
    pre ++ mid ++ post ≠ "" := by
  intro h
  have hd : pre.data ++ mid.data ++ post.data = ([] : List Char) :=
    congrArg String.data h
  rcases List.append_eq_nil.mp hd with ⟨h1, _⟩
  rcases List.append_eq_nil.mp h1 with ⟨h2, _⟩
  exact hpre h2

/-- The missing-recipient message is never the empty string, so
`reason?.message || 'send failed'` preserves it. -/
theorem noRecipientMessage_ne_empty (id : String) :
    noRecipientMessage id ≠ "" :=
  affixed_ne_empty "Template " id " has no recipient specified" (by decide)

/-- The empty-content message is never the empty string. -/
theorem noContentMessage_ne_empty (id : String) : noContentMessage id ≠ "" :=
  affixed_ne_empty "Template " id " has no content (html or text)" (by decide)

/-- Counterexample to **C4** as stated: the claim's recipient rule
`template.to ?? defaultTo` keeps a present-but-empty `template.to`, so at
`templC4` (own `to` present, `""`) it predicts the recipient `""`; the code
computes `template.to || defaultTo`, a truthiness fallback, and actually
sends to the default `"d@x.com"`. -/
theorem claim_C4_cex :
    templC4.«to» = some (.str "") ∧
    sendTemplatedEmails (fun _ => .ok ⟨"mid"⟩) ⟨"u", "p", "n"⟩ (fun _ => true)
        none "/cwd" [templC4] (some (.str "d@x.com"))
      = [{ success := true, messageId := some "mid", templateId := "t1",
           «to» := "d@x.com" }] ∧
    ("d@x.com" : String) ≠ "" := by
  exact ⟨rfl, by decide, by decide⟩

/-- **C4 (amended).**  The recipient is `template.to` when truthy (a
non-empty string, or an array — even an empty one), otherwise `defaultTo`;
the template fails with the missing-recipient error exactly when that
resolved value is falsy (absent or an empty string); the failure result's
`to` field is the joined re-resolved recipient when truthy (arrays join even
when empty), and the literal `"unknown"` otherwise. -/
theorem claim_C4_amended (send : MailOptions → Except Thrown SendInfo)
    (cfg : Config) (fs : String → Bool) (env : Option String) (cwd : String)
    (d : Option Recipient) (t : EmailTemplate) :
    (optRecTruthy (jsOrRec t.«to» d) = false →
      templatedTask send cfg fs env cwd d t
        = .error (.err (noRecipientMessage t.id)) ∧
      (templatedItem send cfg fs env cwd d t).success = false ∧
      (templatedItem send cfg fs env cwd d t).error
        = some (noRecipientMessage t.id) ∧
      (templatedItem send cfg fs env cwd d t).«to»
        = templatedFallbackTo (some t) d) ∧
    (∀ r, jsOrRec t.«to» d = some r → recTruthy r = true →
      (templatedItem send cfg fs env cwd d t).«to» = joinRecipient r) ∧
    templatedFallbackTo (some t) d
      = (match jsOrRec t.«to» d with
          | some (.list l) => String.intercalate ", " l
          | some (.str s) => if s = "" then "unknown" else s
          | none => "unknown") := by
  refine ⟨?_, ?_, rfl⟩
  · intro h
    have htask : templatedTask send cfg fs env cwd d t
        = .error (.err (noRecipientMessage t.id)) := by
      unfold templatedTask
      cases hj : jsOrRec t.«to» d with
      | none => rfl
      | some r =>
        rw [hj] at h
        have hr : recTruthy r = false := by simpa [optRecTruthy] using h
        dsimp only
        rw [if_pos hr]
    refine ⟨htask, ?_, ?_, ?_⟩
    · unfold templatedItem settleItem; rw [htask]; rfl
    · unfold templatedItem settleItem; rw [htask]
      have := noRecipientMessage_ne_empty t.id
      simp [templatedFallback, reasonMessage, this]
    · unfold templatedItem settleItem; rw [htask]; rfl
  · intro r hj hr
    unfold templatedItem settleItem
    cases ht : templatedTask send cfg fs env cwd d t with
    | ok v =>
      obtain ⟨-, -, -, r', hj', -, hto⟩ :=
        templatedTask_ok send cfg fs env cwd d t v ht
      have : r' = r := Option.some.inj (hj'.symm.trans hj)
      rw [hto, this]
    | error e =>
      show (templatedFallback d (some t) e).«to» = joinRecipient r
      show templatedFallbackTo (some t) d = joinRecipient r
      unfold templatedFallbackTo
      rw [show (match some t with
            | none => d
            | some t => jsOrRec t.«to» d) = jsOrRec t.«to» d from rfl, hj]
      cases r with
      | list l => rfl
      | str s =>
        have hs : s ≠ "" := by simpa [recTruthy] using hr
        simp [hs, joinRecipient]

/-- Witness for C4 (amended): a template with no `to` and a list default
resolves to the joined default; one with neither fails with the
missing-recipient error and reports `"unknown"`. -/
theorem claim_C4_witness :
    (templatedItem (fun _ => .ok ⟨"mid"⟩) ⟨"u", "p", "n"⟩ (fun _ => true) none
        "/cwd" (some (.list ["a@x.com", "b@x.com"]))
        { id := "t1", subject := "s", html := some "<p>h</p>" }).«to»
      = "a@x.com, b@x.com" ∧
    templatedTask (fun _ => .ok ⟨"mid"⟩) ⟨"u", "p", "n"⟩ (fun _ => true) none
        "/cwd" none { id := "t2", subject := "s", html := some "<p>h</p>" }
      = .error (.err (noRecipientMessage "t2")) ∧
    (templatedItem (fun _ => .ok ⟨"mid"⟩) ⟨"u", "p", "n"⟩ (fun _ => true) none
        "/cwd" none { id := "t2", subject := "s", html := some "<p>h</p>" }).«to»
      = "unknown" := by
  refine ⟨?_, ?_, ?_⟩
  · exact (claim_C4_amended (fun _ => .ok ⟨"mid"⟩) ⟨"u", "p", "n"⟩
      (fun _ => true) none "/cwd" (some (.list ["a@x.com", "b@x.com"]))
      { id := "t1", subject := "s", html := some "<p>h</p>" }).2.1
      (.list ["a@x.com", "b@x.com"]) rfl rfl
  · exact ((claim_C4_amended (fun _ => .ok ⟨"mid"⟩) ⟨"u", "p", "n"⟩
      (fun _ => true) none "/cwd" none
      { id := "t2", subject := "s", html := some "<p>h</p>" }).1 rfl).1
  · exact ((claim_C4_amended (fun _ => .ok ⟨"mid"⟩) ⟨"u", "p", "n"⟩
      (fun _ => true) none "/cwd" none
      { id := "t2", subject := "s", html := some "<p>h</p>" }).1 rfl).2.2.2

/-- Counterexample to **C5** as stated: `templC5` has non-empty `html` and a
*present* `text` (`""`), so the claim predicts the plaintext alternative is
attached; the code tests `text` for truthiness (`hasText = !!template.text`),
so the message built for the transport carries no `text` field at all. -/
theorem claim_C5_cex :
    templC5.html = some "<p>h</p>" ∧ templC5.text = some "" ∧
    (templateMailOptions ⟨"u", "p", "n"⟩ (.str "d@x.com") templC5 []).text
      = none ∧
    (none : Option String) ≠ some "" := by
  exact ⟨rfl, rfl, rfl, by decide⟩

/-- **C5 (amended).**  Body selection prefers HTML: with truthy (non-empty)
`html` the built message's `html` field is the template's html, and `text`
is attached as the plaintext alternative exactly when the template's text is
also truthy (non-empty); with falsy `html` the message carries no `html` and
its `text` field is the template's text; with neither html nor text truthy
(and a resolvable recipient) the template's task fails with the
empty-content error for *every* transport — i.e. before the transport is
invoked. -/
theorem claim_C5_amended (send : MailOptions → Except Thrown SendInfo)
    (cfg : Config) (fs : String → Bool) (env : Option String) (cwd : String)
    (d : Option Recipient) (toRec : Recipient) (t : EmailTemplate)
    (processed : List ProcessedAttachment) :
    (strTruthy t.html = true →
      (templateMailOptions cfg toRec t processed).html = t.html ∧
      (templateMailOptions cfg toRec t processed).text
        = (if strTruthy t.text then t.text else none)) ∧
    (strTruthy t.html = false →
      (templateMailOptions cfg toRec t processed).html = none ∧
      (templateMailOptions cfg toRec t processed).text = t.text) ∧
    (strTruthy t.html = false → strTruthy t.text = false →
      optRecTruthy (jsOrRec t.«to» d) = true →
      templatedTask send cfg fs env cwd d t
        = .error (.err (noContentMessage t.id))) := by
  refine ⟨?_, ?_, ?_⟩
  · intro h
    constructor <;> simp [templateMailOptions, h]
  · intro h
    constructor <;> simp [templateMailOptions, h]
  · intro h1 h2 h3
    cases hj : jsOrRec t.«to» d with
    | none => rw [hj] at h3; simp [optRecTruthy] at h3
    | some r =>
      have hr : recTruthy r = true := by
        rw [hj] at h3; simpa [optRecTruthy] using h3
      unfold templatedTask
      rw [hj]
      dsimp only
      rw [if_neg (by simp [hr])]
      have hcontent : (if strTruthy t.html = true then t.html.getD ""
          else if strTruthy t.text = true then t.text.getD "" else "") = "" := by
        simp [h1, h2]
      rw [if_pos hcontent]

/-- Witness for C5 (amended): the three content cases at concrete
templates — both html and text, text only, and neither. -/
theorem claim_C5_witness :
    ((templateMailOptions ⟨"u", "p", "n"⟩ (.str "a@x") 
        { id := "t1", subject := "s", html := some "<p>h</p>",
          text := some "plain" } []).html = some "<p>h</p>" ∧
      (templateMailOptions ⟨"u", "p", "n"⟩ (.str "a@x")
        { id := "t1", subject := "s", html := some "<p>h</p>",
          text := some "plain" } []).text
        = (if strTruthy (some "plain") then some "plain" else none)) ∧
    ((templateMailOptions ⟨"u", "p", "n"⟩ (.str "a@x")
        { id := "t2", subject := "s", text := some "plain" } []).html = none ∧
      (templateMailOptions ⟨"u", "p", "n"⟩ (.str "a@x")
        { id := "t2", subject := "s", text := some "plain" } []).text
        = some "plain") ∧
    templatedTask (fun _ => .ok ⟨"mid"⟩) ⟨"u", "p", "n"⟩ (fun _ => true) none
        "/cwd" (some (.str "a@x")) { id := "t3", subject := "s" }
      = .error (.err (noContentMessage "t3")) :=
  ⟨(claim_C5_amended (fun _ => .ok ⟨"mid"⟩) ⟨"u", "p", "n"⟩ (fun _ => true)
      none "/cwd" none (.str "a@x")
      { id := "t1", subject := "s", html := some "<p>h</p>",
        text := some "plain" } []).1 rfl,
    (claim_C5_amended (fun _ => .ok ⟨"mid"⟩) ⟨"u", "p", "n"⟩ (fun _ => true)
      none "/cwd" none (.str "a@x")
      { id := "t2", subject := "s", text := some "plain" } []).2.1 rfl,
    (claim_C5_amended (fun _ => .ok ⟨"mid"⟩) ⟨"u", "p", "n"⟩ (fun _ => true)
      none "/cwd" (some (.str "a@x")) (.str "a@x")
      { id := "t3", subject := "s" } []).2.2 rfl rfl rfl⟩

/-- **C1.**  Both batch operations return one result per input, in input
order: the whole output equals mapping one per-item function over the
inputs, so the array has the input's length and the i-th result is computed
from the i-th input alone — also when that item fails, since the per-item
function covers the rejected case.  The i-th result names the i-th input's
recipient (bulk) and the i-th template's id (templated; the id itself when
non-empty).  Settlement order is not part of the model: `Promise.allSettled`
returns its results in input order by its own contract, which the embedding
reflects. -/
theorem claim_C1 (send : MailOptions → Except Thrown SendInfo) (cfg : Config)
    (fs : String → Bool) (env : Option String) (cwd : String)
    (d : Option Recipient) (emails : List EmailOptions)
    (templates : List EmailTemplate) :
    sendBulkEmails send cfg emails = emails.map (bulkItem send cfg) ∧
    (sendBulkEmails send cfg emails).length = emails.length ∧
    (∀ i, (sendBulkEmails send cfg emails).get? i
      = (emails.get? i).map (bulkItem send cfg)) ∧
    (∀ e, (bulkItem send cfg e).«to» = joinRecipient e.«to») ∧
    sendTemplatedEmails send cfg fs env cwd templates d
      = templates.map (templatedItem send cfg fs env cwd d) ∧
    (sendTemplatedEmails send cfg fs env cwd templates d).length
      = templates.length ∧
    (∀ i, (sendTemplatedEmails send cfg fs env cwd templates d).get? i
      = (templates.get? i).map (templatedItem send cfg fs env cwd d)) ∧
    (∀ t : EmailTemplate, t.id ≠ "" →
      (templatedItem send cfg fs env cwd d t).templateId = t.id) := by
  have hbulk : sendBulkEmails send cfg emails
      = emails.map (bulkItem send cfg) := by
    unfold sendBulkEmails
    dsimp only
    rw [settle_map (bulkTask send cfg) bulkFallback emails emails 0
      (fun i => by simp)]
    exact List.map_congr_left fun a _ => rfl
  have htempl : sendTemplatedEmails send cfg fs env cwd templates d
      = templates.map (templatedItem send cfg fs env cwd d) := by
    unfold sendTemplatedEmails
    dsimp only
    rw [settle_map (templatedTask send cfg fs env cwd d) (templatedFallback d)
      templates templates 0 (fun i => by simp)]
    exact List.map_congr_left fun a _ => rfl
  refine ⟨hbulk, ?_, ?_, ?_, htempl, ?_, ?_, ?_⟩
  · rw [hbulk, List.length_map]
  · intro i
    rw [hbulk]
    simp [List.get?_eq_getElem?, List.getElem?_map]
  · intro e; rfl
  · rw [htempl, List.length_map]
  · intro i
    rw [htempl]
    simp [List.get?_eq_getElem?, List.getElem?_map]
  · intro t hid
    unfold templatedItem settleItem
    cases ht : templatedTask send cfg fs env cwd d t with
    | ok v =>
      obtain ⟨-, -, hti, -⟩ := templatedTask_ok send cfg fs env cwd d t v ht
      exact hti
    | error e =>
      show (templatedFallback d (some t) e).templateId = t.id
      simp [templatedFallback, hid]

/-- Witness for C1: per-index correspondence at a concrete two-element batch
in which the second item fails, and the template-id clause at a concrete
template. -/
theorem claim_C1_witness :
    sendBulkEmails
        (fun mo => if mo.subject = "S1" then .ok ⟨"mid"⟩
          else .error (.err "boom"))
        ⟨"u", "p", "n"⟩
        [{ «to» := .str "a@x", subject := "S1", content := "c" },
         { «to» := .str "b@x", subject := "S2", content := "c" }]
      = [{ success := true, messageId := some "mid", «to» := "a@x" },
         { success := false, error := some "boom", «to» := "b@x" }] ∧
    (templatedItem (fun _ => .ok ⟨"mid"⟩) ⟨"u", "p", "n"⟩ (fun _ => true) none
        "/cwd" none
        { id := "email-1", subject := "s", html := some "<p>h</p>",
          «to» := some (.str "a@x") }).templateId = "email-1" := by
  constructor
  · decide
  · exact (claim_C1 (fun _ => .ok ⟨"mid"⟩) ⟨"u", "p", "n"⟩ (fun _ => true) none
      "/cwd" none [] []).2.2.2.2.2.2.2
      { id := "email-1", subject := "s", html := some "<p>h</p>",
        «to» := some (.str "a@x") } (by decide)
